import Mathlib

/-!
Verification of the trio de-novo variant workflow of the mango repository.

The workflow lives in the notebook `example-files/notebooks/aws-1000genomes.ipynb`.
It loads genotype rows into a dataframe, restricts them to a trio of sample
identifiers, and runs two Spark SQL queries followed by a group-by to compute
de-novo candidate variant names.  The repository also ships an install script
(environment checks followed by build steps), embedded at the end of the
definitions.

The embedding below is a shallow one: a dataframe of genotype rows becomes a
`List GenotypeRecord`, each Spark SQL query becomes a `List.filter` whose
boolean predicate carries over the SQL operator precedence exactly (in SQL,
`AND` binds tighter than `OR`), `groupBy("variant.names").count()` becomes
deduplication of the list of name lists (group keys), and the final Python
flattening comprehension becomes `List.flatten`.
-/

/-- The nested `variant` struct of a genotype row.  The workflow only reads
its `names` array (`variant.names`), so only that field is modelled. -/
structure Variant where
  names : List String
deriving DecidableEq

/-- One row of the genotypes dataframe (`genotypes_df`), with the columns the
notebook consults: `sampleId`, `contigName`, `start`, `end`, `alleles`,
`variant.names`.  The `end` column is rendered `stop` because `end` is a
reserved word. -/
structure GenotypeRecord where
  sampleId : String
  contigName : String
  start : Int
  stop : Int
  alleles : List String
  variant : Variant
deriving DecidableEq

/-- `IDs = ['NA19685','NA19661','NA19660']` — the hard-coded trio list. -/
def IDs : List String := ["NA19685", "NA19661", "NA19660"]

/-- `trio_df = genotypes_df.filter(genotypes_df["sampleId"].isin(IDs))`,
parameterised by the ids list exactly as the code uses it (a bare `isin`
membership test; the code performs no check on the list's size or roles). -/
def trio_df (ids : List String) (genotypes : List GenotypeRecord) :
    List GenotypeRecord :=
  genotypes.filter (fun r => ids.contains r.sampleId)

/-- The `ReferenceRegion` column added by
`withColumn('ReferenceRegion', concat(contigName, ':', start, '-', end))`. -/
def referenceRegion (r : GenotypeRecord) : String :=
  r.contigName ++ ":" ++ toString r.start ++ "-" ++ toString r.stop

/-- `trios_with_referenceRegion`: the trio dataframe with the derived
`ReferenceRegion` column attached.  The column is never consulted by the
SQL filters, so rows are modelled as the record paired with the string. -/
def trios_with_referenceRegion (t : List GenotypeRecord) :
    List (GenotypeRecord × String) :=
  t.map (fun r => (r, referenceRegion r))

/-- `alternate_variant_sites` / `collected_sites`:
`SELECT variant.names[0] AS snp FROM trios WHERE array_contains(alleles, 'ALT')
AND sampleId == 'NA19685'`, collected to a Python list.
`variant.names[0]` is NULL when the names array is empty, so each collected
`snp` is an `Option String` (`none` models SQL NULL / Python None). -/
def alternate_variant_sites (trios : List GenotypeRecord) :
    List (Option String) :=
  (trios.filter (fun r =>
      r.alleles.contains "ALT" && r.sampleId == "NA19685")).map
    (fun r => r.variant.names.head?)

/-- `filtered1 = SELECT * FROM trios WHERE sampleId == 'NA19661' or
sampleId == 'NA19660' AND !array_contains(alleles, 'ALT')`.
SQL `AND` binds tighter than `OR`, so the predicate is
`sampleId == 'NA19661' OR (sampleId == 'NA19660' AND NOT hasALT)`. -/
def filtered1 (trios : List GenotypeRecord) : List GenotypeRecord :=
  trios.filter (fun r =>
    r.sampleId == "NA19661" ||
      (r.sampleId == "NA19660" && !(r.alleles.contains "ALT")))

/-- The predicate of `filtered1["variant.names"][0].isin(collected_sites)`.
In Spark SQL, `NULL IN (...)` evaluates to NULL and the row is dropped, so a
record with an empty names array never passes; a non-null primary name passes
exactly when it occurs among the collected sites. -/
def isinSites (sites : List (Option String)) (r : GenotypeRecord) : Bool :=
  match r.variant.names.head? with
  | none => false
  | some n => sites.contains (some n)

/-- `filtered2 = filtered1.filter(filtered1["variant.names"][0]
.isin(collected_sites))`. -/
def filtered2 (sites : List (Option String)) (trios : List GenotypeRecord) :
    List GenotypeRecord :=
  (filtered1 trios).filter (isinSites sites)

/-- The group keys of `snp_counts = filtered2.groupBy("variant.names").count()`
followed by `snp_names = map(lambda x: x.names, snp_counts)`: one full
`variant.names` list per distinct value among the surviving records. -/
def snp_names (f2 : List GenotypeRecord) : List (List String) :=
  (f2.map (fun r => r.variant.names)).dedup

/-- `denovo_snps = [item for sublist in snp_names for item in sublist]`:
the flattened list of the distinct full name lists. -/
def denovo_snps (f2 : List GenotypeRecord) : List String :=
  (snp_names f2).flatten

/-- The whole pipeline, parameterised by the ids list exactly as the code is
(only `trio_df` consumes it; the SQL literals `'NA19685'`, `'NA19661'`,
`'NA19660'` are hard-coded in the queries). -/
def findDenovoCandidatesWithIds (ids : List String)
    (records : List GenotypeRecord) : List String :=
  let trios := trio_df ids records
  denovo_snps (filtered2 (alternate_variant_sites trios) trios)

/-- `findDenovoCandidates`: the notebook's pipeline with its hard-coded
trio list `IDs`. -/
def findDenovoCandidates (records : List GenotypeRecord) : List String :=
  findDenovoCandidatesWithIds IDs records

/-- The spec's step-3 intermediate set, written from the spec's words for
comparison with the code's `filtered2`: "the subset of restricted records
where `sampleId` is one of `parentIds` AND `alleles` contains an ALT-type
call AND whose primary variant name is a member of `childAltVariants`". -/
def parentCandidateRecordsSpec (records : List GenotypeRecord) :
    List GenotypeRecord :=
  (trio_df IDs records).filter (fun r =>
    (r.sampleId == "NA19661" || r.sampleId == "NA19660") &&
      r.alleles.contains "ALT" &&
      isinSites (alternate_variant_sites (trio_df IDs records)) r)

/-- The dataframe-level state threaded through the notebook's cells.  Every
cell either derives a new dataset from an earlier one or issues an advisory
`cache()` / `unpersist()` call (a memory-residency hint that leaves row data
untouched); no cell writes into `genotypes_df`. -/
structure PipelineState where
  genotypes : List GenotypeRecord
  trioRows : List GenotypeRecord
  triosWithRR : List (GenotypeRecord × String)
  collectedSites : List (Option String)
  parentRows : List GenotypeRecord
  candidateNames : List String

/-- Running the notebook's variant-analysis cells in order, from
`trio_df = genotypes_df.filter(...)` through `denovo_snps` and
`trio_df.unpersist()`. -/
def runPipeline (genotypes : List GenotypeRecord) : PipelineState :=
  let trioRows := trio_df IDs genotypes
  let triosWithRR := trios_with_referenceRegion trioRows
  let collectedSites := alternate_variant_sites trioRows
  let parentRows := filtered2 collectedSites trioRows
  let candidateNames := denovo_snps parentRows
  ⟨genotypes, trioRows, triosWithRR, collectedSites, parentRows,
    candidateNames⟩

/-! ### The install script

`src/unnamed/part_000` checks three environment conditions in order —
virtualenv active, `SPARK_HOME` non-empty, `npm` executable — exiting with
status 1 at the first failure, and only then runs the build steps
(`mvn clean package -DskipTests`, then `make prepare` / `make develop` in
`mango-python` and in `mango-viz`).  The `PYTHONPATH` /
`PYSPARK_SUBMIT_ARGS` exports between the checks and the builds only set
environment variables and run no build tool, so they are not modelled. -/

/-- The environment facts the install script's checks read. -/
structure ShellEnv where
  inVirtualenv : Bool
  sparkHome : String
  npmOnPath : Bool
deriving DecidableEq

/-- One build-tool invocation of the install script. -/
inductive BuildStep where
  | mvnCleanPackage : BuildStep
  | makePrepare : String → BuildStep
  | makeDevelop : String → BuildStep
deriving DecidableEq

/-- The observable outcome of one script run: the exit status and the build
steps that were executed, in order. -/
structure ScriptRun where
  exitStatus : Nat
  buildSteps : List BuildStep
deriving DecidableEq

/-- The build steps the script runs when every check passes. -/
def fullBuild : List BuildStep :=
  [BuildStep.mvnCleanPackage,
   BuildStep.makePrepare "mango-python", BuildStep.makeDevelop "mango-python",
   BuildStep.makePrepare "mango-viz", BuildStep.makeDevelop "mango-viz"]

/-- The install script: three guarded `exit 1`s, then the builds. -/
def runInstallScript (env : ShellEnv) : ScriptRun :=
  if !env.inVirtualenv then ⟨1, []⟩
  else if env.sparkHome = "" then ⟨1, []⟩
  else if !env.npmOnPath then ⟨1, []⟩
  else ⟨0, fullBuild⟩

/-! ### Helper lemmas -/

/-- Example records used by the concrete-input theorems below. -/
def mkRec (s : String) (alleles : List String) (ns : List String) :
    GenotypeRecord :=
  ⟨s, "17", 100, 101, alleles, ⟨ns⟩⟩

lemma mem_filtered1_sampleId {trios : List GenotypeRecord}
    {r : GenotypeRecord} (h : r ∈ filtered1 trios) :
    r ∈ trios ∧ (r.sampleId = "NA19661" ∨ r.sampleId = "NA19660") := by
  rw [filtered1, List.mem_filter] at h
  refine ⟨h.1, ?_⟩
  rcases Bool.or_eq_true_iff.mp h.2 with h1 | h2
  · exact Or.inl (by simpa using h1)
  · exact Or.inr (by simpa using (Bool.and_eq_true_iff.mp h2).1)

lemma mem_findDenovoCandidates_elim {recs : List GenotypeRecord} {n : String}
    (h : n ∈ findDenovoCandidates recs) :
    ∃ r, r ∈ recs ∧ (r.sampleId = "NA19661" ∨ r.sampleId = "NA19660") ∧
      n ∈ r.variant.names ∧
      r ∈ filtered2 (alternate_variant_sites (trio_df IDs recs))
        (trio_df IDs recs) := by
  rw [findDenovoCandidates, findDenovoCandidatesWithIds] at h
  simp only [denovo_snps, snp_names, List.mem_flatten, List.mem_dedup,
    List.mem_map] at h
  obtain ⟨l, ⟨r, hr2, hnames⟩, hnl⟩ := h
  have hr1 : r ∈ filtered1 (trio_df IDs recs) ∧ isinSites _ r = true :=
    List.mem_filter.mp hr2
  have hs := mem_filtered1_sampleId hr1.1
  have hrec : r ∈ recs := (List.mem_filter.mp hs.1).1
  exact ⟨r, hrec, hs.2, hnames ▸ hnl, hr2⟩

/-! ### Claim theorems -/

/-- C1: the claim says a variant at which any parent shows an ALT call never
reaches the de-novo candidate set, and the notebook's own prose ("filter
sites in which the parents have both reference alleles", "filter by only REF
locations") states the same intent.  The code disagrees: SQL `AND` binds
tighter than `or` in the `filtered1` query, so every record of parent
NA19661 passes regardless of its alleles.  At the failing input below the
child NA19685 and parent NA19661 both carry ALT at "rs1", yet the pipeline
returns ["rs1"]. -/
theorem c1_parent_alt_reaches_result :
    (mkRec "NA19661" ["ALT", "REF"] ["rs1"]).sampleId ∈ IDs ∧
    (mkRec "NA19661" ["ALT", "REF"] ["rs1"]).alleles.contains "ALT" = true ∧
    findDenovoCandidates
      [mkRec "NA19685" ["ALT", "REF"] ["rs1"],
       mkRec "NA19661" ["ALT", "REF"] ["rs1"]] = ["rs1"] := by
  decide

/-- C2 counterexample: with a single child record carrying ALT at "rs1" and
no parent record at all, "rs1" lies in the child's ALT set
(`collected_sites`) but the pipeline returns the empty list — the claim
says such a variant is included. -/
theorem c2_counterexample :
    some "rs1" ∈
      alternate_variant_sites
        (trio_df IDs [mkRec "NA19685" ["ALT", "REF"] ["rs1"]]) ∧
    (∀ r ∈ [mkRec "NA19685" ["ALT", "REF"] ["rs1"]],
      ¬(r.sampleId = "NA19661" ∨ r.sampleId = "NA19660")) ∧
    findDenovoCandidates [mkRec "NA19685" ["ALT", "REF"] ["rs1"]] = [] := by
  decide

/-- C2 amended: a variant name that occurs in no parent record's name list
is NEVER in the result — the result is built exclusively from grouped
parent-side records, so absence of parent records excludes a candidate
rather than including it. -/
theorem c2_absent_from_parents_excluded (recs : List GenotypeRecord)
    (v : String)
    (h : ∀ r ∈ recs,
      (r.sampleId = "NA19661" ∨ r.sampleId = "NA19660") →
        v ∉ r.variant.names) :
    v ∉ findDenovoCandidates recs := by
  intro hv
  obtain ⟨r, hr, hpar, hname, -⟩ := mem_findDenovoCandidates_elim hv
  exact h r hr hpar hname

/-- C2 witness: the amended theorem applied to the single-child input. -/
theorem c2_absent_from_parents_excluded_witness :
    "rs1" ∉ findDenovoCandidates [mkRec "NA19685" ["ALT", "REF"] ["rs1"]] :=
  c2_absent_from_parents_excluded _ _ (by decide)

/-- C10: every name in the pipeline's output occurs in the `variant.names`
list of some input record whose `sampleId` is one of the two parent
identifiers and which passed the parent-side filter (`filtered2`). -/
theorem c10_output_supported_by_parent_record (recs : List GenotypeRecord)
    (n : String) (h : n ∈ findDenovoCandidates recs) :
    ∃ r, r ∈ recs ∧ (r.sampleId = "NA19661" ∨ r.sampleId = "NA19660") ∧
      n ∈ r.variant.names ∧
      r ∈ filtered2 (alternate_variant_sites (trio_df IDs recs))
        (trio_df IDs recs) :=
  mem_findDenovoCandidates_elim h

/-- C10 witness: applied to a child-ALT / parent-REF input whose output
is ["rs1"]. -/
theorem c10_output_supported_by_parent_record_witness :
    ∃ r, r ∈ [mkRec "NA19685" ["ALT", "REF"] ["rs1"],
              mkRec "NA19660" ["REF", "REF"] ["rs1"]] ∧
      (r.sampleId = "NA19661" ∨ r.sampleId = "NA19660") ∧
      "rs1" ∈ r.variant.names ∧
      r ∈ filtered2
        (alternate_variant_sites (trio_df IDs
          [mkRec "NA19685" ["ALT", "REF"] ["rs1"],
           mkRec "NA19660" ["REF", "REF"] ["rs1"]]))
        (trio_df IDs
          [mkRec "NA19685" ["ALT", "REF"] ["rs1"],
           mkRec "NA19660" ["REF", "REF"] ["rs1"]]) :=
  c10_output_supported_by_parent_record _ "rs1" (by decide)

/-- C3 counterexample: at an input with a child ALT record and a parent
NA19660 REF-only record at "rs1", the spec's step-3 set (parent AND has ALT
AND name in child set) is empty, while the code's `filtered2` keeps the
REF-only parent record — the query filters on `!array_contains(alleles,
'ALT')`, the negation of the spec's wording, and only for NA19660. -/
theorem c3_counterexample :
    parentCandidateRecordsSpec
      [mkRec "NA19685" ["ALT", "REF"] ["rs1"],
       mkRec "NA19660" ["REF", "REF"] ["rs1"]] ≠
    filtered2
      (alternate_variant_sites (trio_df IDs
        [mkRec "NA19685" ["ALT", "REF"] ["rs1"],
         mkRec "NA19660" ["REF", "REF"] ["rs1"]]))
      (trio_df IDs
        [mkRec "NA19685" ["ALT", "REF"] ["rs1"],
         mkRec "NA19660" ["REF", "REF"] ["rs1"]]) := by
  decide

/-- C3 amended: the parent-side intermediate set (`filtered2`) equals
exactly the input records satisfying `sampleId = "NA19661"` OR
(`sampleId = "NA19660"` AND alleles do NOT contain "ALT"), whose non-null
primary variant name is a member of the child's ALT-site list. -/
theorem c3_filtered2_characterisation (recs : List GenotypeRecord)
    (r : GenotypeRecord) :
    r ∈ filtered2 (alternate_variant_sites (trio_df IDs recs))
        (trio_df IDs recs) ↔
      r ∈ recs ∧
      (r.sampleId = "NA19661" ∨
        (r.sampleId = "NA19660" ∧ r.alleles.contains "ALT" = false)) ∧
      isinSites (alternate_variant_sites (trio_df IDs recs)) r = true := by
  simp only [filtered2, filtered1, trio_df, List.mem_filter, IDs]
  constructor
  · rintro ⟨⟨⟨hrec, -⟩, hpred⟩, hisin⟩
    refine ⟨hrec, ?_, hisin⟩
    rcases Bool.or_eq_true_iff.mp hpred with h1 | h2
    · exact Or.inl (by simpa using h1)
    · obtain ⟨ha, hb⟩ := Bool.and_eq_true_iff.mp h2
      exact Or.inr ⟨by simpa using ha, by simpa using hb⟩
  · rintro ⟨hrec, hpred, hisin⟩
    obtain h1 | ⟨h2, h3⟩ := hpred
    · exact ⟨⟨⟨hrec, by simp [h1]⟩, by simp [h1]⟩, hisin⟩
    · exact ⟨⟨⟨hrec, by simp [h2]⟩, by simp [h2]; simpa using h3⟩, hisin⟩

/-- C4 counterexample: the trio list below names two children (NA19685 and
NA19686) and a single parent (NA19660); the pipeline raises no error and
returns the result set ["rs1"] computed from those individuals. -/
theorem c4_counterexample :
    findDenovoCandidatesWithIds ["NA19685", "NA19686", "NA19660"]
      [mkRec "NA19685" ["ALT", "REF"] ["rs1"],
       mkRec "NA19686" ["ALT", "REF"] ["rs1"],
       mkRec "NA19660" ["REF", "REF"] ["rs1"]] = ["rs1"] := by
  decide

/-- C4 amended: the code performs no trio-cardinality validation — the ids
list is consumed solely as a sample-membership restriction, so for any ids
list whatsoever the pipeline silently computes its result from the records
of those individuals (its output equals its output on the input already
restricted to samples named by the ids list). -/
theorem c4_no_trio_validation (ids : List String)
    (recs : List GenotypeRecord) :
    findDenovoCandidatesWithIds ids recs =
      findDenovoCandidatesWithIds ids
        (recs.filter (fun r => ids.contains r.sampleId)) := by
  simp [findDenovoCandidatesWithIds, trio_df, List.filter_filter]

/-- C6: when no record's sampleId belongs to the trio list, the pipeline
returns the empty list and signals no error. -/
theorem c6_no_trio_samples_empty_result (recs : List GenotypeRecord)
    (h : ∀ r ∈ recs, r.sampleId ∉ IDs) :
    findDenovoCandidates recs = [] := by
  have ht : trio_df IDs recs = [] := by
    rw [trio_df, List.filter_eq_nil_iff]
    intro r hr
    simpa using h r hr
  rw [findDenovoCandidates, findDenovoCandidatesWithIds, ht]
  rfl

/-- C6 witness: a one-record collection from an unrelated sample. -/
theorem c6_no_trio_samples_empty_result_witness :
    findDenovoCandidates [mkRec "HG00096" ["ALT", "REF"] ["rs1"]] = [] :=
  c6_no_trio_samples_empty_result _ (by decide)

/-- C5 counterexample: on the input below the pipeline returns
["rs1", "rs1", "rs2"] — the name "rs1" appears twice (duplicates are not
collapsed across distinct group keys) and "rs2" appears although it is the
primary (first) name of no record, because the group-by flattening emits
every element of each surviving record's full name list. -/
theorem c5_counterexample :
    findDenovoCandidates
      [mkRec "NA19685" ["ALT", "REF"] ["rs1"],
       mkRec "NA19660" ["REF", "REF"] ["rs1"],
       mkRec "NA19660" ["REF", "REF"] ["rs1", "rs2"]] =
      ["rs1", "rs1", "rs2"] ∧
    ¬(findDenovoCandidates
      [mkRec "NA19685" ["ALT", "REF"] ["rs1"],
       mkRec "NA19660" ["REF", "REF"] ["rs1"],
       mkRec "NA19660" ["REF", "REF"] ["rs1", "rs2"]]).Nodup ∧
    (∀ r ∈ [mkRec "NA19685" ["ALT", "REF"] ["rs1"],
            mkRec "NA19660" ["REF", "REF"] ["rs1"],
            mkRec "NA19660" ["REF", "REF"] ["rs1", "rs2"]],
      r.variant.names.head? ≠ some "rs2") := by
  decide

/-- C5 amended: the returned value is the flattened list of the distinct
full name lists of the surviving parent records — a name belongs to it
exactly when it occurs anywhere in the `variant.names` list of some record
of `filtered2` (not only in first position), and duplicate names may
remain when they occur in several distinct name lists. -/
theorem c5_result_membership (recs : List GenotypeRecord) (n : String) :
    n ∈ findDenovoCandidates recs ↔
      ∃ r, r ∈ filtered2 (alternate_variant_sites (trio_df IDs recs))
          (trio_df IDs recs) ∧ n ∈ r.variant.names := by
  simp only [findDenovoCandidates, findDenovoCandidatesWithIds, denovo_snps,
    snp_names, List.mem_flatten, List.mem_dedup, List.mem_map]
  constructor
  · rintro ⟨l, ⟨r, hr, rfl⟩, hn⟩
    exact ⟨r, hr, hn⟩
  · rintro ⟨r, hr, hn⟩
    exact ⟨r.variant.names, ⟨r, hr, rfl⟩, hn⟩

lemma isinSites_congr {s₁ s₂ : List (Option String)} (h : s₁.Perm s₂)
    (r : GenotypeRecord) : isinSites s₁ r = isinSites s₂ r := by
  unfold isinSites
  cases r.variant.names.head? with
  | none => rfl
  | some n =>
    simp only [List.contains, List.elem_eq_mem]
    rw [decide_eq_decide]
    exact h.mem_iff

lemma alternate_variant_sites_perm {t t' : List GenotypeRecord}
    (h : t.Perm t') :
    (alternate_variant_sites t).Perm (alternate_variant_sites t') := by
  unfold alternate_variant_sites
  exact (h.filter _).map _

lemma filtered2_perm {t t' : List GenotypeRecord} (h : t.Perm t') :
    (filtered2 (alternate_variant_sites t) t).Perm
      (filtered2 (alternate_variant_sites t') t') := by
  unfold filtered2 filtered1
  have h1 := (h.filter (fun r =>
    r.sampleId == "NA19661" ||
      (r.sampleId == "NA19660" && !(r.alleles.contains "ALT")))).filter
    (isinSites (alternate_variant_sites t))
  have h2 : (List.filter (fun r =>
      r.sampleId == "NA19661" ||
        (r.sampleId == "NA19660" && !(r.alleles.contains "ALT"))) t').filter
      (isinSites (alternate_variant_sites t)) =
    (List.filter (fun r =>
      r.sampleId == "NA19661" ||
        (r.sampleId == "NA19660" && !(r.alleles.contains "ALT"))) t').filter
      (isinSites (alternate_variant_sites t')) :=
    List.filter_congr (fun x _ =>
      isinSites_congr (alternate_variant_sites_perm h) x)
  exact h2 ▸ h1

/-- C7: permuting the input record collection does not change the result as
a set — every stage (filters, map, dedup, flatten) maps permuted inputs to
permuted outputs, so the two result lists have the same elements. -/
theorem c7_order_independence (l l' : List GenotypeRecord)
    (h : l.Perm l') :
    (findDenovoCandidates l).toFinset =
      (findDenovoCandidates l').toFinset := by
  apply List.toFinset_eq_of_perm
  unfold findDenovoCandidates findDenovoCandidatesWithIds denovo_snps
    snp_names
  exact (((filtered2_perm (h.filter _)).map _).dedup).flatten

/-- C7 witness: a two-record input and its transposition. -/
theorem c7_order_independence_witness :
    (findDenovoCandidates
      [mkRec "NA19685" ["ALT", "REF"] ["rs1"],
       mkRec "NA19660" ["REF", "REF"] ["rs1"]]).toFinset =
    (findDenovoCandidates
      [mkRec "NA19660" ["REF", "REF"] ["rs1"],
       mkRec "NA19685" ["ALT", "REF"] ["rs1"]]).toFinset :=
  c7_order_independence _ _
    (List.Perm.swap (mkRec "NA19660" ["REF", "REF"] ["rs1"])
      (mkRec "NA19685" ["ALT", "REF"] ["rs1"]) [])

/-- C8: the pipeline has no side effect on its input — after running every
cell, the source genotype collection held in the final state is exactly the
input collection, and the derived trio dataset contains only records of the
input (records are selected, never rewritten). -/
theorem c8_no_mutation (g : List GenotypeRecord) :
    (runPipeline g).genotypes = g ∧
    ∀ r ∈ (runPipeline g).trioRows, r ∈ g := by
  refine ⟨rfl, fun r hr => ?_⟩
  simp only [runPipeline, trio_df] at hr
  exact (List.mem_filter.mp hr).1

/-- C8 witness: the pipeline run on a one-record collection. -/
theorem c8_no_mutation_witness :
    (runPipeline [mkRec "NA19685" ["ALT", "REF"] ["rs1"]]).genotypes =
      [mkRec "NA19685" ["ALT", "REF"] ["rs1"]] ∧
    mkRec "NA19685" ["ALT", "REF"] ["rs1"] ∈
      [mkRec "NA19685" ["ALT", "REF"] ["rs1"]] :=
  ⟨(c8_no_mutation _).1, (c8_no_mutation _).2 _ (by decide)⟩

/-- C9: the install script exits with status 1 and runs no build step
(no mvn, no make) whenever the virtualenv is inactive, or SPARK_HOME is
unset/empty, or npm is not executable; when all three checks pass it runs
exactly the build steps, in order. -/
theorem c9_env_checks_gate_builds (env : ShellEnv) :
    ((env.inVirtualenv = false ∨ env.sparkHome = "" ∨
        env.npmOnPath = false) →
      (runInstallScript env).exitStatus = 1 ∧
        (runInstallScript env).buildSteps = []) ∧
    (env.inVirtualenv = true → env.sparkHome ≠ "" → env.npmOnPath = true →
      runInstallScript env = ⟨0, fullBuild⟩) := by
  obtain ⟨v, s, n⟩ := env
  by_cases hs : s = "" <;> cases v <;> cases n <;>
    simp_all [runInstallScript]

/-- C9 witness: a run with the virtualenv inactive (exit 1, no builds) and
a run with every check passing (the full build list). -/
theorem c9_env_checks_gate_builds_witness :
    ((runInstallScript ⟨false, "/opt/spark", true⟩).exitStatus = 1 ∧
      (runInstallScript ⟨false, "/opt/spark", true⟩).buildSteps = []) ∧
    runInstallScript ⟨true, "/opt/spark", true⟩ = ⟨0, fullBuild⟩ :=
  ⟨(c9_env_checks_gate_builds _).1 (Or.inl rfl),
   (c9_env_checks_gate_builds _).2 rfl (by decide) rfl⟩
